import Mathlib

/-!
Verification of the DermaDetect backend orchestration core.

The definitions below are a shallow embedding of the JavaScript source:
`routes/predict.js` (classification pipeline: label normalization, disease
whitelist, confidence threshold, severity derivation, persistence),
`routes/llm.js` (advice pipeline: provider selection, Ollama health cache,
medical prompt builder) and the TinyLlama adapter variant of `routes/llm.js`
(response-shape normalization).  JavaScript numbers are modelled as `ℚ`,
strings as `String`, time as milliseconds in `ℕ`, network and database
effects as explicit oracle arguments.
-/

set_option maxRecDepth 8192

namespace DermaDetect

/-! ## Generic string helpers (JS `trim`, `toLowerCase`, `includes`, `startsWith`) -/

/-- Whitespace recognised by JS `String.prototype.trim` (the characters that
occur in this code base). -/
def isWsChar (c : Char) : Bool :=
  c == ' ' || c == '\t' || c == '\n' || c == '\r'

/-- Drop leading and trailing whitespace from a character list. -/
def trimChars (l : List Char) : List Char :=
  ((l.dropWhile isWsChar).reverse.dropWhile isWsChar).reverse

/-- JS `s.trim()`. -/
def trimStr (s : String) : String :=
  ⟨trimChars s.data⟩

/-- JS `s.toLowerCase()` (ASCII, which covers every string this code compares). -/
def toLowerStr (s : String) : String :=
  ⟨s.data.map Char.toLower⟩

/-- `leadsWith pat l` holds when `l` starts with `pat` (JS `startsWith`). -/
def leadsWith : List Char → List Char → Bool
  | [], _ => true
  | _ :: _, [] => false
  | p :: ps, c :: cs => p == c && leadsWith ps cs

/-- `occursIn pat l` holds when `pat` occurs contiguously inside `l`
(JS `String.prototype.includes`). -/
def occursIn (pat : List Char) : List Char → Bool
  | [] => pat.isEmpty
  | c :: cs => leadsWith pat (c :: cs) || occursIn pat cs

/-! ## Classification pipeline (`routes/predict.js`) -/

/-- `CONFIDENCE_THRESHOLD = 0.15` from `routes/predict.js`. -/
def CONFIDENCE_THRESHOLD : ℚ := 15 / 100

/-- `VALID_DISEASES` from `routes/predict.js`: the trained disease classes. -/
def VALID_DISEASES : List String :=
  ["acne", "hyperpigmentation", "vitiligo", "sjs",
   "melanoma", "keratosis", "psoriasis", "ringworm"]

/-- `normalizeDiseaseName` from `routes/predict.js`:
`disease.trim().toLowerCase().replace(/[^a-z0-9]/g, '')`. -/
def normalizeDiseaseName (disease : String) : String :=
  ⟨((trimChars disease.data).map Char.toLower).filter
    (fun c => ('a' ≤ c && c ≤ 'z') || ('0' ≤ c && c ≤ '9'))⟩

/-- `isValidDisease` from `routes/predict.js`: the normalized label must equal,
or contain as a substring, a normalized whitelist entry. -/
def isValidDisease (disease : String) : Bool :=
  let normalized := normalizeDiseaseName disease
  VALID_DISEASES.any fun valid =>
    normalizeDiseaseName valid == normalized ||
    occursIn (normalizeDiseaseName valid).data normalized.data

/-- `determineSeverity` from `routes/predict.js`. -/
def determineSeverity (confidence : ℚ) : String :=
  if confidence ≥ 7 / 10 then "severe"
  else if confidence ≥ 2 / 5 then "moderate"
  else "mild"

/-- The `confidence` field of the ML backend's JSON payload, as seen by
`parseFloat(response.data.confidence || 0)`.  `missing` is an absent field,
`falsy` a present but falsy value (empty string, `0`, `null`); a numeric (or
numeric-string) value is `num q`. -/
inductive ConfidenceField where
  | missing : ConfidenceField
  | falsy : ConfidenceField
  | num (q : ℚ) : ConfidenceField
deriving DecidableEq

/-- `parseFloat(response.data.confidence || 0)`: a missing or falsy field is
replaced by `0` before parsing, so it parses to `0`. -/
def parsedConfidence : ConfidenceField → ℚ
  | .missing => 0
  | .falsy => 0
  | .num q => q

/-- The JSON body the prediction route returns to the caller, by case.
`belowThreshold` and `invalidClass` are the `success:false` soft rejections
(carrying `belowThreshold:true` resp. `invalidClass:true`); `accepted` is the
`success:true` response carrying `prediction`, `confidence`, `severity`;
`serverError` is a `500` response; `errNoPrediction` is the thrown
`ML model did not return a prediction`. -/
inductive PredictResponse where
  | errNoPrediction : PredictResponse
  | belowThreshold (confidence : ℚ) (predictedDisease : String) : PredictResponse
  | invalidClass (detectedClass : String) (confidence : ℚ) : PredictResponse
  | serverError (message : String) : PredictResponse
  | accepted (prediction : String) (confidence : ℚ) (severity : String) : PredictResponse
deriving DecidableEq

/-- The response-processing section of `router.post('/')` in
`routes/predict.js` (lines 180-276): extract the label and confidence, apply
the threshold check, the whitelist check, severity derivation
(`severity || determineSeverity(confidence)` where `severity` is the request's
form field) and the awaited `prediction.save()` whose failure falls into the
route's catch block. -/
def predictOutcome (diseaseField : Option String) (cf : ConfidenceField)
    (bodySeverity : String) (save : Except String Unit) : PredictResponse :=
  match diseaseField with
  | none => .errNoPrediction
  | some d0 =>
    if d0 = "" then .errNoPrediction
    else
      let confidence := parsedConfidence cf
      let disease := trimStr d0
      if confidence < CONFIDENCE_THRESHOLD then
        .belowThreshold confidence disease
      else if !(isValidDisease disease) then
        .invalidClass disease confidence
      else
        let finalSeverity :=
          if bodySeverity ≠ "" then bodySeverity else determineSeverity confidence
        match save with
        | .error e => .serverError e
        | .ok _ => .accepted disease confidence finalSeverity

/-! ### The full confidence-field domain, including `parseFloat` → `NaN`

`ConfidenceField` covers the cases whose parse is an actual number.  The
backend can also send a truthy non-numeric `confidence` (e.g.
`confidence: "high"`), which `parseFloat` turns into `NaN`; in JS every
comparison with `NaN` is false, so such a value slips past the
`confidence < CONFIDENCE_THRESHOLD` guard.  The definitions below extend the
model with that case. -/

/-- A JavaScript number as produced by `parseFloat`: an actual (rational)
value or `NaN`. -/
inductive JSNumber where
  | val (q : ℚ) : JSNumber
  | nan : JSNumber
deriving DecidableEq

/-- JS `x < t` on a possibly-`NaN` number: any comparison with `NaN` is false. -/
def jsLt (x : JSNumber) (t : ℚ) : Bool :=
  match x with
  | .val q => q < t
  | .nan => false

/-- JS `x >= t` on a possibly-`NaN` number: false when `x` is `NaN`. -/
def jsGe (x : JSNumber) (t : ℚ) : Bool :=
  match x with
  | .val q => t ≤ q
  | .nan => false

/-- The backend `confidence` field over its full domain: as `ConfidenceField`,
plus the truthy non-numeric case that `parseFloat` maps to `NaN`. -/
inductive BackendConfidence where
  | missing : BackendConfidence
  | falsy : BackendConfidence
  | num (q : ℚ) : BackendConfidence
  | nonNumeric : BackendConfidence
deriving DecidableEq

/-- `parseFloat(response.data.confidence || 0)` over the full domain: missing
and falsy fields are replaced by `0` before parsing, numeric values parse
exactly, and a truthy non-numeric value parses to `NaN`. -/
def parsedConfidenceJS : BackendConfidence → JSNumber
  | .missing => .val 0
  | .falsy => .val 0
  | .num q => .val q
  | .nonNumeric => .nan

/-- `determineSeverity` on a possibly-`NaN` confidence: `NaN >= 0.7` and
`NaN >= 0.4` are both false in JS, so `NaN` falls through to `'mild'`. -/
def determineSeverityJS (confidence : JSNumber) : String :=
  if jsGe confidence (7 / 10) then "severe"
  else if jsGe confidence (2 / 5) then "moderate"
  else "mild"

/-- `PredictResponse` with possibly-`NaN` confidence payloads (JSON
serialization later renders `NaN` as `null`, but the route builds and sends
the response from the `NaN` value). -/
inductive PredictResponseJS where
  | errNoPrediction : PredictResponseJS
  | belowThreshold (confidence : JSNumber) (predictedDisease : String) : PredictResponseJS
  | invalidClass (detectedClass : String) (confidence : JSNumber) : PredictResponseJS
  | serverError (message : String) : PredictResponseJS
  | accepted (prediction : String) (confidence : JSNumber) (severity : String) : PredictResponseJS
deriving DecidableEq

/-- The same response processing as `predictOutcome`, over the full
confidence-field domain and with JS comparison semantics: a `NaN` confidence
fails the `confidence < CONFIDENCE_THRESHOLD` guard (so the low-confidence
rejection is bypassed) and continues to the whitelist check and the success
response. -/
def predictOutcomeJS (diseaseField : Option String) (cf : BackendConfidence)
    (bodySeverity : String) (save : Except String Unit) : PredictResponseJS :=
  match diseaseField with
  | none => .errNoPrediction
  | some d0 =>
    if d0 = "" then .errNoPrediction
    else
      let confidence := parsedConfidenceJS cf
      let disease := trimStr d0
      if jsLt confidence CONFIDENCE_THRESHOLD then
        .belowThreshold confidence disease
      else if !(isValidDisease disease) then
        .invalidClass disease confidence
      else
        let finalSeverity :=
          if bodySeverity ≠ "" then bodySeverity else determineSeverityJS confidence
        match save with
        | .error e => .serverError e
        | .ok _ => .accepted disease confidence finalSeverity

/-- Numeric confidence fields, embedded into the full domain. -/
def liftConfidence : ConfidenceField → BackendConfidence
  | .missing => .missing
  | .falsy => .falsy
  | .num q => .num q

/-- Responses over numeric confidences, embedded into the full domain. -/
def liftResponse : PredictResponse → PredictResponseJS
  | .errNoPrediction => .errNoPrediction
  | .belowThreshold c d => .belowThreshold (.val c) d
  | .invalidClass d c => .invalidClass d (.val c)
  | .serverError m => .serverError m
  | .accepted p c s => .accepted p (.val c) s

/-- Confidence rescale of the second `router.post('/')` variant in
`routes/predict.js` (and `part_005`): `if (confidence > 1) confidence /= 100`. -/
def rescaledConfidence (c : ℚ) : ℚ :=
  if c > 1 then c / 100 else c

/-- The threshold comparison of that variant, made after rescaling. -/
def confidenceGateV2 (c : ℚ) : Bool :=
  rescaledConfidence c < CONFIDENCE_THRESHOLD

/-! ## Advice pipeline (`routes/llm.js`): Ollama health cache -/

/-- The module-level health state of `routes/llm.js`: `ollamaAvailable`,
`lastHealthCheck` (a timestamp in ms, `none` before the first successful
check) and `availableModels` (model names from `GET /api/tags`). -/
structure OllamaHealthState where
  ollamaAvailable : Bool
  lastHealthCheck : Option ℕ
  availableModels : List String
deriving DecidableEq

/-- What a single health probe against `GET OLLAMA_URL/api/tags` came back
with: a 200 response listing models, a non-200 status, a refused connection,
a timeout, or another transport error. -/
inductive ProbeOutcome where
  | ok (models : List String) : ProbeOutcome
  | httpError : ProbeOutcome
  | connRefused : ProbeOutcome
  | timedOut : ProbeOutcome
  | otherError (message : String) : ProbeOutcome

/-- `LLM_MODEL.split(':')[0]` from `checkOllamaHealth`. -/
def modelBase (llmModel : String) : String :=
  ⟨llmModel.data.takeWhile (fun c => c != ':')⟩

/-- The model lookup in `checkOllamaHealth`:
`m.name === LLM_MODEL || m.name.startsWith(LLM_MODEL.split(':')[0])`. -/
def hasRequestedModel (llmModel : String) (models : List String) : Bool :=
  models.any fun m => m == llmModel || leadsWith (modelBase llmModel).data m.data

/-- `checkOllamaHealth` from `routes/llm.js` as a state transition: on a 200
response it sets `ollamaAvailable := true`, `lastHealthCheck := now` and the
model list, then clears `ollamaAvailable` again when the requested model is
missing; on a non-200 status or any caught error it only clears
`ollamaAvailable`.  The `Bool` is the function's return value. -/
def checkOllamaHealth (llmModel : String) (now : ℕ) (st : OllamaHealthState)
    (probe : ProbeOutcome) : OllamaHealthState × Bool :=
  match probe with
  | .ok models =>
    if hasRequestedModel llmModel models then
      (⟨true, some now, models⟩, true)
    else
      (⟨false, some now, models⟩, false)
  | .httpError => ({ st with ollamaAvailable := false }, false)
  | .connRefused => ({ st with ollamaAvailable := false }, false)
  | .timedOut => ({ st with ollamaAvailable := false }, false)
  | .otherError _ => ({ st with ollamaAvailable := false }, false)

/-- The health-cache staleness window used by `adviceHandler`: 30000 ms. -/
def STALE_AFTER_MS : ℕ := 30000

/-- The recheck condition in `adviceHandler`:
`!lastHealthCheck || (Date.now() - lastHealthCheck) > 30000`. -/
def needsHealthRecheck (now : ℕ) (lastHealthCheck : Option ℕ) : Bool :=
  match lastHealthCheck with
  | none => true
  | some t => now - t > STALE_AFTER_MS

/-- The health gate at the top of `adviceHandler`: run `checkOllamaHealth`
only when the cached record is missing or stale, otherwise keep the cached
state.  The `Bool` records whether a network probe was issued. -/
def adviceHealthGate (llmModel : String) (now : ℕ) (st : OllamaHealthState)
    (probe : ProbeOutcome) : OllamaHealthState × Bool :=
  if needsHealthRecheck now st.lastHealthCheck then
    ((checkOllamaHealth llmModel now st probe).1, true)
  else
    (st, false)

/-! ## Advice pipeline (`routes/llm.js`): provider selection and persistence -/

/-- The provider configuration `generateAdviceWithLLM` consults:
`USE_OPENAI`, presence of `OPENAI_API_KEY`, and the health flag
`ollamaAvailable`. -/
structure LLMRouteConfig where
  useOpenAI : Bool
  hasOpenAIKey : Bool
  ollamaAvailable : Bool

/-- The error thrown by `generateAdviceWithLLM` when no provider is eligible. -/
def noLLMServiceMessage : String :=
  "No LLM service available. Please install Ollama (https://ollama.ai) and run: ollama pull tinyllama"

/-- `generateAdviceWithLLM` from `routes/llm.js`: pick OpenAI when
`USE_OPENAI && OPENAI_API_KEY`, else Ollama when `ollamaAvailable`, else throw.
`openAIResult` and `ollamaResult` are the outcomes each provider call would
have; a thrown provider error propagates unchanged (`Except.error`). -/
def generateAdviceWithLLM (cfg : LLMRouteConfig)
    (openAIResult ollamaResult : Except String String) : Except String String :=
  if cfg.useOpenAI && cfg.hasOpenAIKey then openAIResult
  else if cfg.ollamaAvailable then ollamaResult
  else .error noLLMServiceMessage

/-- What `adviceHandler` sends once advice generation succeeded. -/
inductive AdviceOutcome where
  | success (advice : String) : AdviceOutcome
  | failed (message : String) : AdviceOutcome
deriving DecidableEq

/-- The tail of `adviceHandler` in `routes/llm.js` (after `generateAdviceWithLLM`
succeeded): the `Prediction.findByIdAndUpdate` call sits in its own
`try/catch` whose catch only logs, so the `success:true` response is sent
whatever `updateResult` is. -/
def adviceAfterGeneration (advice : String) (predictionId : Option String)
    (updateResult : Except String Unit) : AdviceOutcome :=
  match predictionId, updateResult with
  | _, _ => .success advice

/-! ## TinyLlama adapter (the `routes/llm.js` HF-Space variants) -/

/-- The JSON body of a 2xx TinyLlama Space response, as probed by
`callTinyLlama`: an object (with optional `response` / `generated_text`
string fields), an array (each element's optional `generated_text` field),
or any other shape. -/
inductive TinyLlamaData where
  | obj (response : Option String) (generated_text : Option String) : TinyLlamaData
  | arr (elems : List (Option String)) : TinyLlamaData
  | otherShape : TinyLlamaData

/-- JS truthiness of an optional string field: present and non-empty. -/
def truthyStr : Option String → Bool
  | none => false
  | some s => s != ""

/-- The error `callTinyLlama` throws on an unrecognized payload. -/
def unrecognizedShapeMessage : String := "Unrecognized TinyLlama response format"

/-- The response-shape normalization of `callTinyLlama`: try
`data?.response`, then `data?.generated_text`, then
`Array.isArray(data) && data[0]?.generated_text`, trimming the first truthy
hit; otherwise throw `Unrecognized TinyLlama response format`. -/
def callTinyLlamaParse : TinyLlamaData → Except String String
  | .obj r g =>
    if truthyStr r then .ok (trimStr (r.getD ""))
    else if truthyStr g then .ok (trimStr (g.getD ""))
    else .error unrecognizedShapeMessage
  | .arr elems =>
    match elems with
    | some s :: _ =>
      if s != "" then .ok (trimStr s) else .error unrecognizedShapeMessage
    | _ => .error unrecognizedShapeMessage
  | .otherShape => .error unrecognizedShapeMessage

/-! ## Prompt builder (`createMedicalPrompt` in `routes/llm.js`) -/

/-- The fixed high-risk condition list in `createMedicalPrompt`. -/
def urgentConditions : List String :=
  ["melanoma", "basal cell carcinoma", "squamous cell carcinoma",
   "stevens-johnson syndrome", "cellulitis", "sepsis"]

/-- `isUrgent` in `createMedicalPrompt`:
`urgentConditions.some(cond => disease.toLowerCase().includes(cond))`. -/
def isUrgentCondition (disease : String) : Bool :=
  urgentConditions.any fun cond => occursIn cond.data (toLowerStr disease).data

/-- The urgent-attention directive line the prompt prepends for high-risk
conditions. -/
def urgentDirective : String :=
  "⚠️ URGENT CONDITION - START WITH IMMEDIATE MEDICAL ATTENTION WARNING\n"

/-- JS `Number.prototype.toFixed(0)` on a rational: round half away from zero. -/
def jsRound (q : ℚ) : ℤ :=
  if q ≥ 0 then ⌊q + 1 / 2⌋ else ⌈q - 1 / 2⌉

/-- The confidence interpolation in the prompt:
`confidence ? (confidence * 100).toFixed(0) + '%' : 'N/A'` (a missing or zero
confidence is falsy). -/
def confidenceDisplay : Option ℚ → String
  | none => "N/A"
  | some c => if c = 0 then "N/A" else toString (jsRound (c * 100)) ++ "%"

/-- `createMedicalPrompt` from `routes/llm.js`: the template literal of lines
236-266, with the three `isUrgent` interpolations. -/
def createMedicalPrompt (disease symptoms severity duration : String)
    (confidence : Option ℚ) : String :=
  "You are a dermatology medical assistant. Provide advice for: " ++ disease ++
  "\n\nPatient Info:\n- Condition: " ++ disease ++
  " (Confidence: " ++ confidenceDisplay confidence ++
  ")\n- Symptoms: " ++ (if symptoms ≠ "" then symptoms else "Not specified") ++
  "\n- Severity: " ++ (if severity ≠ "" then severity else "moderate") ++
  "\n- Duration: " ++ (if duration ≠ "" then duration else "Not specified") ++
  "\n\n" ++ (if isUrgentCondition disease then urgentDirective else "") ++
  "\nProvide concise advice (400-500 words) covering:\n\n" ++
  "1. CONDITION OVERVIEW (2-3 sentences)\nWhat is " ++ disease ++
  " and what causes it?\n\n" ++
  "2. TREATMENT OPTIONS (3-4 key points)\n- First-line treatments\n- OTC options if applicable\n- Home care tips\n\n" ++
  "3. WHEN TO SEE A DOCTOR (2-3 warning signs)\n" ++
  (if isUrgentCondition disease then "- Emphasize URGENT professional consultation needed"
   else "- Timeline for medical visit") ++
  "\n\n4. PREVENTION & CARE (2-3 tips)\n- Daily skincare\n- What to avoid\n\n" ++
  "IMPORTANT: \n- Keep response under 500 words for speed\n- Use simple language\n" ++
  "- End with: \"⚠️ This is AI-generated advice. Always consult a dermatologist for proper diagnosis.\"\n- " ++
  (if isUrgentCondition disease then "Emphasize URGENT medical attention needed"
   else "Note AI screening is not a diagnosis")

/-! ## Helper lemmas -/

theorem dataAppend (a b : String) : (a ++ b).data = a.data ++ b.data := by
  cases a; cases b; rfl

theorem leadsWith_refl_append (p ys : List Char) : leadsWith p (p ++ ys) = true := by
  induction p with
  | nil => rfl
  | cons c cs ih => simp [leadsWith, ih]

theorem occursIn_of_leadsWith {p t : List Char} (h : leadsWith p t = true) :
    occursIn p t = true := by
  cases t with
  | nil =>
    cases p with
    | nil => rfl
    | cons c cs => simp [leadsWith] at h
  | cons c cs => simp [occursIn, h]

theorem occursIn_here (p ys : List Char) : occursIn p (p ++ ys) = true :=
  occursIn_of_leadsWith (leadsWith_refl_append p ys)

theorem occursIn_right (p : List Char) (x : List Char) {t : List Char}
    (h : occursIn p t = true) : occursIn p (x ++ t) = true := by
  induction x with
  | nil => simpa using h
  | cons c cs ih => simp [occursIn, ih]

theorem parsedConfidenceJS_lift (cf : ConfidenceField) :
    parsedConfidenceJS (liftConfidence cf) = .val (parsedConfidence cf) := by
  cases cf <;> rfl

theorem determineSeverityJS_val (q : ℚ) :
    determineSeverityJS (.val q) = determineSeverity q := by
  simp [determineSeverityJS, determineSeverity, jsGe, ge_iff_le]

/-- On numeric confidence fields the full-domain route model restricts to
`predictOutcome` — the `NaN` extension changes nothing for actual numbers. -/
theorem predictOutcomeJS_agrees (df : Option String) (cf : ConfidenceField)
    (bs : String) (save : Except String Unit) :
    predictOutcomeJS df (liftConfidence cf) bs save =
      liftResponse (predictOutcome df cf bs save) := by
  cases df with
  | none => rfl
  | some d0 =>
    simp only [predictOutcomeJS, predictOutcome, parsedConfidenceJS_lift]
    by_cases h0 : d0 = ""
    · simp [h0, liftResponse]
    · simp only [if_neg h0]
      by_cases hc : parsedConfidence cf < CONFIDENCE_THRESHOLD
      · simp [jsLt, hc, liftResponse]
      · by_cases hv : isValidDisease (trimStr d0)
        · cases save <;> by_cases hb : bs = "" <;>
            simp [jsLt, hc, hv, hb, liftResponse, determineSeverityJS_val]
        · simp [jsLt, hc, hv, liftResponse]


/-! ## Claim theorems -/

/-- C1 counterexample: a 2xx backend response naming "acne" with a truthy
non-numeric confidence field parses to `NaN`; `NaN < 0.15` is false, so the
below-threshold guard is bypassed and the route returns an accepted
(`success:true`) result whose confidence is `NaN` — not ≥ the 0.15 threshold
(every `NaN` comparison is false). -/
theorem C1_counterexample :
    predictOutcomeJS (some "acne") .nonNumeric "" (.ok ()) =
      .accepted "acne" .nan "mild" ∧
    jsLt JSNumber.nan CONFIDENCE_THRESHOLD = false ∧
    jsGe JSNumber.nan CONFIDENCE_THRESHOLD = false := by
  refine ⟨?_, rfl, rfl⟩
  decide

/-- C1 amended: an accepted result's label always passes the
normalize-then-equal-or-substring whitelist check, and whenever the backend
confidence parses to an actual number the accepted confidence is at least the
0.15 threshold; an accepted confidence is `NaN` exactly when the backend sent
a truthy non-numeric confidence field, and such a result is accepted even
though its confidence is not ≥ the threshold. -/
theorem C1_amended :
    ∀ (diseaseField : Option String) (cf : BackendConfidence) (bodySeverity : String)
      (save : Except String Unit) (p : String) (c : JSNumber) (sev : String),
    predictOutcomeJS diseaseField cf bodySeverity save = .accepted p c sev →
    isValidDisease p = true ∧
    (∀ q : ℚ, c = .val q → CONFIDENCE_THRESHOLD ≤ q) ∧
    (c = .nan → cf = .nonNumeric) := by
  intro df cf bs save p c sev h
  cases df with
  | none => exact absurd h (by simp [predictOutcomeJS])
  | some d0 =>
    simp only [predictOutcomeJS] at h
    by_cases h0 : d0 = ""
    · rw [if_pos h0] at h; exact absurd h (by simp)
    · rw [if_neg h0] at h
      split at h
      · exact absurd h (by simp)
      · next hconf =>
        split at h
        · exact absurd h (by simp)
        · next hvalid =>
          split at h
          · exact absurd h (by simp)
          · rw [PredictResponseJS.accepted.injEq] at h
            obtain ⟨hp, hc, -⟩ := h
            refine ⟨?_, ?_, ?_⟩
            · rw [← hp]; simpa using hvalid
            · intro q hq
              rw [← hc] at hq
              cases cf with
              | num q' =>
                simp only [parsedConfidenceJS, JSNumber.val.injEq] at hq
                subst hq
                simpa [parsedConfidenceJS, jsLt, not_lt] using hconf
              | missing =>
                norm_num [parsedConfidenceJS, jsLt, CONFIDENCE_THRESHOLD] at hconf
              | falsy =>
                norm_num [parsedConfidenceJS, jsLt, CONFIDENCE_THRESHOLD] at hconf
              | nonNumeric => simp [parsedConfidenceJS] at hq
            · intro hnan
              rw [← hc] at hnan
              cases cf with
              | nonNumeric => rfl
              | missing => simp [parsedConfidenceJS] at hnan
              | falsy => simp [parsedConfidenceJS] at hnan
              | num q => simp [parsedConfidenceJS] at hnan

/-- Witness for C1 at a concrete numerically-accepted request. -/
theorem C1_witness :
    isValidDisease "acne" = true ∧
    (∀ q : ℚ, JSNumber.val (87 / 100) = JSNumber.val q → CONFIDENCE_THRESHOLD ≤ q) ∧
    (JSNumber.val (87 / 100) = JSNumber.nan → BackendConfidence.num (87 / 100) = .nonNumeric) :=
  C1_amended (some "acne") (.num (87 / 100)) "" (.ok ())
    "acne" (.val (87 / 100)) "severe" (by
      have h0 : "acne" ≠ "" := by decide
      have h1 : trimStr "acne" = "acne" := by decide
      have h2 : isValidDisease "acne" = true := by decide
      norm_num [predictOutcomeJS, parsedConfidenceJS, jsLt, jsGe, determineSeverityJS,
        CONFIDENCE_THRESHOLD, h0, h1, h2])


/-- C2 counterexample: a backend confidence of 200 is rescaled to 2, which is
not in [0,1], so the rescaled value is not always in [0,1]. -/
theorem C2_counterexample :
    rescaledConfidence 200 = 2 ∧
    ¬((0 : ℚ) ≤ rescaledConfidence 200 ∧ rescaledConfidence 200 ≤ 1) := by
  norm_num [rescaledConfidence]

/-- C2 amended: a confidence above 1 is divided by 100 before the threshold
comparison, and the rescaled value lies in [0,1] whenever the reported value
lies in [0,100]. -/
theorem C2_amended : ∀ c : ℚ,
    (c > 1 → rescaledConfidence c = c / 100) ∧
    (c > 1 → (confidenceGateV2 c = true ↔ c / 100 < CONFIDENCE_THRESHOLD)) ∧
    (0 ≤ c → c ≤ 100 → 0 ≤ rescaledConfidence c ∧ rescaledConfidence c ≤ 1) := by
  intro c
  refine ⟨fun h => if_pos h, fun h => ?_, fun h0 h100 => ?_⟩
  · simp [confidenceGateV2, rescaledConfidence, if_pos h]
  · unfold rescaledConfidence
    split
    · constructor
      · positivity
      · rw [div_le_one (by norm_num)]; exact h100
    · next h1 => exact ⟨h0, le_of_not_lt h1⟩

/-- Witness for C2 at the concrete percentage value 50. -/
theorem C2_witness : 0 ≤ rescaledConfidence 50 ∧ rescaledConfidence 50 ≤ 1 :=
  (C2_amended 50).2.2 (by norm_num) (by norm_num)

/-- C3 counterexample: with confidence 0.95 and the request's severity field
set to "mild", the accepted result carries severity "mild", not the
confidence-derived "severe" — the returned severity depends on the request's
severity field. -/
theorem C3_counterexample :
    predictOutcome (some "acne") (.num (95 / 100)) "mild" (.ok ()) =
      .accepted "acne" (95 / 100) "mild" ∧
    determineSeverity (95 / 100) = "severe" ∧ ("mild" : String) ≠ "severe" := by
  have h0 : "acne" ≠ "" := by decide
  have h1 : trimStr "acne" = "acne" := by decide
  have h2 : isValidDisease "acne" = true := by decide
  have h3 : "mild" ≠ "" := by decide
  refine ⟨?_, ?_, by decide⟩
  · norm_num [predictOutcome, parsedConfidence, CONFIDENCE_THRESHOLD, determineSeverity,
      h0, h1, h2, h3]
  · norm_num [determineSeverity]

/-- C3 amended: `determineSeverity` is a pure function of confidence with the
0.7 / 0.4 cutoffs, and the severity returned with an accepted result is
`determineSeverity confidence` exactly when the request supplied no (truthy)
severity field; a non-empty request severity is returned unchanged instead. -/
theorem C3_amended :
    (∀ c : ℚ,
      (7 / 10 ≤ c → determineSeverity c = "severe") ∧
      (c < 7 / 10 → 2 / 5 ≤ c → determineSeverity c = "moderate") ∧
      (c < 2 / 5 → determineSeverity c = "mild")) ∧
    (∀ (d0 : String) (cf : ConfidenceField) (bodySeverity p sev : String) (cv : ℚ),
      predictOutcome (some d0) cf bodySeverity (.ok ()) = .accepted p cv sev →
      sev = if bodySeverity = "" then determineSeverity cv else bodySeverity) := by
  constructor
  · intro c
    refine ⟨fun h => if_pos h, fun h1 h2 => ?_, fun h => ?_⟩
    · rw [determineSeverity, if_neg (by exact not_le.mpr h1), if_pos h2]
    · rw [determineSeverity, if_neg (by exact not_le.mpr (h.trans (by norm_num))),
        if_neg (by exact not_le.mpr h)]
  · intro d0 cf bs p sev cv h
    simp only [predictOutcome] at h
    by_cases h0 : d0 = ""
    · rw [if_pos h0] at h; exact absurd h (by simp)
    · rw [if_neg h0] at h
      split at h
      · exact absurd h (by simp)
      · next hconf =>
        split at h
        · exact absurd h (by simp)
        · rw [PredictResponse.accepted.injEq] at h
          obtain ⟨-, hc, hs⟩ := h
          rw [← hs, ← hc]
          by_cases hb : bs = "" <;> simp [hb]

/-- Witness for C3: severity "moderate" at confidence 0.5, and the accepted
severity equals the derived one when the request field is empty. -/
theorem C3_witness :
    determineSeverity (1 / 2) = "moderate" ∧
    ("severe" : String) = (if ("" : String) = "" then determineSeverity (87 / 100) else "") :=
  ⟨(C3_amended.1 (1 / 2)).2.1 (by norm_num) (by norm_num),
   C3_amended.2 "acne" (.num (87 / 100)) "" "acne" "severe" (87 / 100) (by
     have h0 : "acne" ≠ "" := by decide
     have h1 : trimStr "acne" = "acne" := by decide
     have h2 : isValidDisease "acne" = true := by decide
     norm_num [predictOutcome, parsedConfidence, CONFIDENCE_THRESHOLD, determineSeverity,
       h0, h1, h2])⟩

/-- C4 counterexample: with OpenAI configured and Ollama available, a failing
OpenAI call makes the whole advice request fail with OpenAI's error — the
router does not continue to the next eligible provider, and the caller does
not receive an aggregate of per-provider errors. -/
theorem C4_counterexample :
    generateAdviceWithLLM ⟨true, true, true⟩
      (.error "OpenAI rate limit exceeded. Please try again later")
      (.ok "fallback advice") =
      .error "OpenAI rate limit exceeded. Please try again later" ∧
    generateAdviceWithLLM ⟨true, true, true⟩
      (.error "OpenAI rate limit exceeded. Please try again later")
      (.ok "fallback advice") ≠ .ok "fallback advice" := by
  constructor
  · rfl
  · simp [generateAdviceWithLLM]

/-- C4 amended: the handler selects a single provider (OpenAI when enabled
with a key, else Ollama when marked available) and returns that provider's
outcome unchanged — a provider failure propagates without trying the next
provider; only when both are skipped does the caller get the fixed
no-LLM-service error, which carries no per-provider error list. -/
theorem C4_amended : ∀ (cfg : LLMRouteConfig) (oa ol : Except String String),
    ((cfg.useOpenAI && cfg.hasOpenAIKey) = true → generateAdviceWithLLM cfg oa ol = oa) ∧
    ((cfg.useOpenAI && cfg.hasOpenAIKey) = false → cfg.ollamaAvailable = true →
      generateAdviceWithLLM cfg oa ol = ol) ∧
    ((cfg.useOpenAI && cfg.hasOpenAIKey) = false → cfg.ollamaAvailable = false →
      generateAdviceWithLLM cfg oa ol = .error noLLMServiceMessage) := by
  intro cfg oa ol
  refine ⟨fun h => ?_, fun h h2 => ?_, fun h h2 => ?_⟩ <;>
    simp [generateAdviceWithLLM, h, *]

/-- Witness for C4: with OpenAI disabled and Ollama available, the Ollama
outcome is returned. -/
theorem C4_witness :
    generateAdviceWithLLM ⟨false, false, true⟩ (.ok "unused") (.ok "ollama advice") =
      .ok "ollama advice" :=
  (C4_amended ⟨false, false, true⟩ (.ok "unused") (.ok "ollama advice")).2.1 rfl rfl


/-- C5: when the cached health record is younger than the 30s staleness
window, the cached state is used and no probe is issued; when it is older,
a fresh probe is attempted and routing uses the probed state. -/
theorem C5_health_cache_freshness :
    ∀ (m : String) (now t : ℕ) (st : OllamaHealthState) (probe : ProbeOutcome),
    st.lastHealthCheck = some t →
    (now - t < STALE_AFTER_MS → adviceHealthGate m now st probe = (st, false)) ∧
    (now - t > STALE_AFTER_MS →
      (adviceHealthGate m now st probe).2 = true ∧
      (adviceHealthGate m now st probe).1 = (checkOllamaHealth m now st probe).1) := by
  intro m now t st probe ht
  constructor
  · intro hfresh
    unfold STALE_AFTER_MS at hfresh
    have hrc : needsHealthRecheck now st.lastHealthCheck = false := by
      simp only [needsHealthRecheck, ht, STALE_AFTER_MS, decide_eq_false_iff_not]
      omega
    simp [adviceHealthGate, hrc]
  · intro hstale
    unfold STALE_AFTER_MS at hstale
    have hrc : needsHealthRecheck now st.lastHealthCheck = true := by
      simp only [needsHealthRecheck, ht, STALE_AFTER_MS, decide_eq_true_eq]
      omega
    simp [adviceHealthGate, hrc]

/-- Witness for C5: a 21s-old record is served from cache; a 40s-old record
triggers a probe. -/
theorem C5_witness :
    adviceHealthGate "phi3:mini" 31000 ⟨true, some 10000, []⟩ .connRefused =
      (⟨true, some 10000, []⟩, false) ∧
    (adviceHealthGate "phi3:mini" 50000 ⟨true, some 10000, []⟩ .connRefused).2 = true :=
  ⟨(C5_health_cache_freshness "phi3:mini" 31000 10000 ⟨true, some 10000, []⟩ .connRefused
      rfl).1 (by norm_num [STALE_AFTER_MS]),
   ((C5_health_cache_freshness "phi3:mini" 50000 10000 ⟨true, some 10000, []⟩ .connRefused
      rfl).2 (by norm_num [STALE_AFTER_MS])).1⟩

/-- C6 counterexample: a refused connection marks Ollama unavailable but does
not refresh `lastHealthCheck` (it stays at its old value instead of the probe
time), so failed probes are not cached for the staleness window. -/
theorem C6_counterexample :
    (checkOllamaHealth "phi3:mini" 100000 ⟨true, some 0, []⟩ .connRefused).1 =
      ⟨false, some 0, []⟩ ∧
    (checkOllamaHealth "phi3:mini" 100000 ⟨true, some 0, []⟩ .connRefused).1.lastHealthCheck ≠
      some 100000 := by
  constructor
  · rfl
  · decide

/-- C6 amended: a 200 probe response refreshes the timestamp (marking the
provider available exactly when the requested model is present); a non-200
status, refused connection, timeout or other error marks the provider
unavailable while leaving the timestamp (and model list) unchanged, so those
failures are not cached. -/
theorem C6_amended : ∀ (m : String) (now : ℕ) (st : OllamaHealthState) (models : List String),
    (hasRequestedModel m models = true →
      checkOllamaHealth m now st (.ok models) = (⟨true, some now, models⟩, true)) ∧
    (hasRequestedModel m models = false →
      checkOllamaHealth m now st (.ok models) = (⟨false, some now, models⟩, false)) ∧
    (checkOllamaHealth m now st .httpError = ({ st with ollamaAvailable := false }, false)) ∧
    (checkOllamaHealth m now st .connRefused = ({ st with ollamaAvailable := false }, false)) ∧
    (checkOllamaHealth m now st .timedOut = ({ st with ollamaAvailable := false }, false)) ∧
    (∀ msg, checkOllamaHealth m now st (.otherError msg) =
      ({ st with ollamaAvailable := false }, false)) := by
  intro m now st models
  refine ⟨fun h => ?_, fun h => ?_, rfl, rfl, rfl, fun msg => rfl⟩ <;>
    simp [checkOllamaHealth, h]

/-- Witness for C6: a successful probe finding the requested model refreshes
the timestamp and marks Ollama available. -/
theorem C6_witness :
    checkOllamaHealth "phi3:mini" 5000 ⟨false, none, []⟩ (.ok ["phi3:mini"]) =
      (⟨true, some 5000, ["phi3:mini"]⟩, true) :=
  (C6_amended "phi3:mini" 5000 ⟨false, none, []⟩ ["phi3:mini"]).1 (by decide)

/-- C7: the TinyLlama adapter normalizes the three success shapes
`{response}`, `{generated_text}` and `[{generated_text}]` (any tail after the
first array element is ignored) to the same trimmed text, and returns the
unrecognized-shape error for every payload matching none of them: objects
with both fields falsy, the empty array, any array whose first element has no
truthy `generated_text` (absent or empty), and any other shape. -/
theorem C7_shape_normalization : ∀ s : String, s ≠ "" →
    (callTinyLlamaParse (.obj (some s) none) = .ok (trimStr s)) ∧
    (callTinyLlamaParse (.obj none (some s)) = .ok (trimStr s)) ∧
    (∀ rest, callTinyLlamaParse (.arr (some s :: rest)) = .ok (trimStr s)) ∧
    (∀ r g, truthyStr r = false → truthyStr g = false →
      callTinyLlamaParse (.obj r g) = .error unrecognizedShapeMessage) ∧
    (callTinyLlamaParse (.arr []) = .error unrecognizedShapeMessage) ∧
    (∀ rest, callTinyLlamaParse (.arr (none :: rest)) = .error unrecognizedShapeMessage) ∧
    (∀ rest, callTinyLlamaParse (.arr (some "" :: rest)) = .error unrecognizedShapeMessage) ∧
    (callTinyLlamaParse .otherShape = .error unrecognizedShapeMessage) := by
  intro s hs
  refine ⟨?_, ?_, fun rest => ?_, fun r g hr hg => ?_, rfl, fun rest => rfl,
    fun rest => ?_, rfl⟩
  · simp [callTinyLlamaParse, truthyStr, hs]
  · simp [callTinyLlamaParse, truthyStr, hs]
  · simp [callTinyLlamaParse, hs]
  · simp [callTinyLlamaParse, hr, hg]
  · simp [callTinyLlamaParse]

/-- Witness for C7 on a concrete non-empty payload text. -/
theorem C7_witness :
    (" some advice " : String) ≠ "" ∧
    callTinyLlamaParse (.obj (some " some advice ") none) = .ok (trimStr " some advice ") :=
  ⟨by decide, (C7_shape_normalization " some advice " (by decide)).1⟩

/-- C8: the urgency override fires exactly on the `isUrgent` containment
check — any condition whose lowercased name contains a high-risk entry gets
the urgent-attention directive in its prompt ("melanoma", in any casing,
always does), while "acne" is not urgent and its prompt lacks the directive. -/
theorem C8_urgency_override :
    ∀ (d symptoms severity duration : String) (confidence : Option ℚ),
    (isUrgentCondition d = true →
      occursIn urgentDirective.data
        (createMedicalPrompt d symptoms severity duration confidence).data = true) ∧
    isUrgentCondition "melanoma" = true ∧
    isUrgentCondition "MELANOMA" = true ∧
    isUrgentCondition "acne" = false ∧
    occursIn urgentDirective.data
      (createMedicalPrompt "acne" "" "" "" none).data = false := by
  intro d s sv du cf
  refine ⟨fun hu => ?_, by decide, by decide, by decide, by decide⟩
  simp only [createMedicalPrompt, hu, if_true, dataAppend, List.append_assoc]
  repeat first
    | exact occursIn_here _ _
    | apply occursIn_right

/-- Witness for C8: the prompt for "melanoma" with concrete patient fields
contains the urgent-attention directive. -/
theorem C8_witness :
    occursIn urgentDirective.data
      (createMedicalPrompt "melanoma" "itching" "severe" "3 weeks" (some (87 / 100))).data =
      true :=
  (C8_urgency_override "melanoma" "itching" "severe" "3 weeks" (some (87 / 100))).1 (by decide)

/-- C9 counterexample: in the main predict route the database save is awaited
inside the try block, so with the same accepted classification a failing save
turns the response into a 500 server error — the caller does not receive the
success outcome. -/
theorem C9_counterexample :
    predictOutcome (some "psoriasis") (.num (9 / 10)) "" (.ok ()) =
      .accepted "psoriasis" (9 / 10) "severe" ∧
    predictOutcome (some "psoriasis") (.num (9 / 10)) "" (.error "database unavailable") =
      .serverError "database unavailable" := by
  have h0 : "psoriasis" ≠ "" := by decide
  have h1 : trimStr "psoriasis" = "psoriasis" := by decide
  have h2 : isValidDisease "psoriasis" = true := by decide
  constructor <;>
    norm_num [predictOutcome, parsedConfidence, CONFIDENCE_THRESHOLD, determineSeverity,
      h0, h1, h2]

/-- C9 amended: on the advice path a persistence failure never changes the
success response (the update error is swallowed), but on the classification
path a save failure replaces what would have been the accepted response with
a server error. -/
theorem C9_amended :
    (∀ (advice : String) (predictionId : Option String) (upd : Except String Unit),
      adviceAfterGeneration advice predictionId upd = .success advice) ∧
    (∀ (d0 : String) (cf : ConfidenceField) (bodySeverity msg p sev : String) (cv : ℚ),
      predictOutcome (some d0) cf bodySeverity (.ok ()) = .accepted p cv sev →
      predictOutcome (some d0) cf bodySeverity (.error msg) = .serverError msg) := by
  constructor
  · intro a pid u; rfl
  · intro d0 cf bs msg p sev cv h
    simp only [predictOutcome] at h ⊢
    by_cases h0 : d0 = ""
    · rw [if_pos h0] at h; exact absurd h (by simp)
    · rw [if_neg h0] at h ⊢
      split at h
      · exact absurd h (by simp)
      · next hconf =>
        rw [if_neg hconf]
        split at h
        · exact absurd h (by simp)
        · next hvalid => rw [if_neg hvalid]

/-- Witness for C9: the advice response survives a failed update, and a
concrete accepted classification becomes a server error when the save fails. -/
theorem C9_witness :
    adviceAfterGeneration "keep the area dry" (some "652f1a") (.error "write failed") =
      .success "keep the area dry" ∧
    predictOutcome (some "ringworm") (.num (1 / 2)) "" (.error "db down") =
      .serverError "db down" :=
  ⟨C9_amended.1 "keep the area dry" (some "652f1a") (.error "write failed"),
   C9_amended.2 "ringworm" (.num (1 / 2)) "" "db down" "ringworm" "moderate" (1 / 2) (by
     have h0 : "ringworm" ≠ "" := by decide
     have h1 : trimStr "ringworm" = "ringworm" := by decide
     have h2 : isValidDisease "ringworm" = true := by decide
     norm_num [predictOutcome, parsedConfidence, CONFIDENCE_THRESHOLD, determineSeverity,
       h0, h1, h2])⟩

/-- C10: a 2xx backend response with a recognized disease label but a missing
(or falsy) confidence field parses to confidence 0, and the route then always
returns the below-threshold soft rejection carrying confidence 0 and the
original label — never an accepted result. -/
theorem C10_missing_confidence_soft_reject :
    ∀ (d bodySeverity : String) (save : Except String Unit) (cf : ConfidenceField),
    d ≠ "" → isValidDisease d = true → (cf = .missing ∨ cf = .falsy) →
    parsedConfidence cf = 0 ∧
    predictOutcome (some d) cf bodySeverity save = .belowThreshold 0 (trimStr d) ∧
    (∀ p c sev, predictOutcome (some d) cf bodySeverity save ≠ .accepted p c sev) := by
  intro d bs save cf hd hvalid hcf
  have hc : parsedConfidence cf = 0 := by
    rcases hcf with h | h <;> subst h <;> rfl
  have hmain : predictOutcome (some d) cf bs save = .belowThreshold 0 (trimStr d) := by
    simp only [predictOutcome, if_neg hd, hc]
    rw [if_pos (by norm_num [CONFIDENCE_THRESHOLD])]
  refine ⟨hc, hmain, fun p c sev => ?_⟩
  rw [hmain]
  simp

/-- Witness for C10: a response naming "acne" with no confidence field is
soft-rejected below threshold. -/
theorem C10_witness :
    parsedConfidence .missing = 0 ∧
    predictOutcome (some "acne") .missing "" (.ok ()) = .belowThreshold 0 (trimStr "acne") ∧
    (∀ p c sev, predictOutcome (some "acne") .missing "" (.ok ()) ≠ .accepted p c sev) :=
  C10_missing_confidence_soft_reject "acne" "" (.ok ()) .missing (by decide) (by decide)
    (Or.inl rfl)

end DermaDetect
